import Mathlib

/-!
# Verification of the commit-delta indexing pipeline

A shallow embedding of the two pipeline scripts of this repository:

* `src/GitHub_Commit_Delta_Indexer_with_ChromaDB.py` (namespace `Chroma`)
* `src/Az_CogSrch_Commit_Delta_Indexer.py` (namespace `Azure`)

External collaborators (the hosting API, the embedding provider, the vector
store, the wall clock) are modelled as inputs gathered in an `Env` record.
A sync cycle is a pure function from the persisted hash-file state and an
`Env` to a `CycleResult`: the list of observable calls made (`Event` trace),
the hash-file contents afterwards, and whether an uncaught Python exception
escaped the cycle.

Embedding vectors are opaque black-box values; their contents never matter
to the pipeline logic, so they are modelled as `List Int`.
-/

/-- Vector returned by the (black-box) embedding provider. -/
abbrev Vec := List Int

/-- One file-level change record of the compare endpoint's `files` array. -/
structure FileChange where
  filename : String
  status : String
  additions : Nat
  deletions : Nat
  changes : Nat
  /-- `none` models a JSON object without the `patch` key (accessed via `.get`). -/
  patch : Option String
  deriving DecidableEq, Repr

/-- The `commit.author` object of the commits endpoint; `name` may be missing. -/
structure CommitAuthor where
  name : Option String
  deriving DecidableEq, Repr

/-- The `commit` object: message and author may be missing keys. -/
structure CommitBody where
  message : Option String
  author : Option CommitAuthor
  deriving DecidableEq, Repr

/-- Response of `GET /repos/{o}/{r}/commits/{sha}` as the scripts consume it. -/
structure CommitInfo where
  sha : String
  commit : Option CommitBody
  deriving DecidableEq, Repr

/-- Response of the compare endpoint: the `files` key may be absent. -/
structure DiffResp where
  files : Option (List FileChange)
  deriving DecidableEq, Repr

/-- Python truthiness of an optional string: `None` and `""` are falsy. -/
def falsyStr : Option String → Bool
  | none => true
  | some s => s.isEmpty

/-- Python's `str.strip()` with no argument: drop whitespace at both ends. -/
def pyStrip (s : String) : String :=
  String.mk (((s.toList.dropWhile Char.isWhitespace).reverse.dropWhile
    Char.isWhitespace).reverse)

/-- `commit_info.get('commit', \x7b\x7d).get('message', dflt)`. -/
def commit_message (info : CommitInfo) (dflt : String) : String :=
  match info.commit with
  | none => dflt
  | some c => c.message.getD dflt

/-- `commit_info.get('commit', \x7b\x7d).get('author', \x7b\x7d).get('name', 'Unknown')`. -/
def author_name (info : CommitInfo) : String :=
  match info.commit with
  | none => "Unknown"
  | some c =>
    match c.author with
    | none => "Unknown"
    | some a => a.name.getD "Unknown"

/-!
## Revision Tracker (`read_previous_hash` / `write_previous_hash`)

The persisted state is the hash file: `none` when the file does not exist,
`some s` when it exists with contents `s`. Both scripts define the same pair
of functions.
-/

/-- `read_previous_hash`: `None` when the file is missing, else the stripped
file contents. -/
def read_previous_hash (st : Option String) : Option String :=
  st.map pyStrip

/-- `write_previous_hash`: overwrite the file with exactly `h`. Returns the
new file state. -/
def write_previous_hash (h : String) : Option String :=
  some h

/-!
## Head resolution request construction (`get_latest_commit_hash`)
-/

/-- An outgoing HTTP GET as `requests.get` receives it. -/
structure HttpRequest where
  url : String
  headers : List (String × String)
  params : List (String × String)
  deriving DecidableEq, Repr

/-- One element of the commits-list response. -/
structure CommitListItem where
  sha : String
  deriving DecidableEq, Repr

/-- `data[0]["sha"] if data else None`, with `none` for a failed request. -/
def latest_hash_of_response (resp : Option (List CommitListItem)) : Option String :=
  match resp with
  | none => none
  | some [] => none
  | some (c :: _) => some c.sha

namespace Chroma

/-- The `params` dict built on line 35 of the ChromaDB script. -/
def latest_commit_params (branch : String) : List (String × String) :=
  [("sha", branch), ("per_page", "1")]

/-- The request the ChromaDB script actually sends on line 36:
`requests.get(url, headers=headers)` — the `params` dict is not passed. -/
def latest_commit_request (owner repo token : String) : HttpRequest :=
  { url := "https://api.github.com/repos/" ++ owner ++ "/" ++ repo ++ "/commits"
  , headers := [("Authorization", "token " ++ token)]
  , params := [] }

end Chroma

namespace Azure

/-- The request the Azure script sends on line 185:
`requests.get(url, headers=headers, params=params)`. -/
def latest_commit_request (owner repo token branch : String) : HttpRequest :=
  { url := "https://api.github.com/repos/" ++ owner ++ "/" ++ repo ++ "/commits"
  , headers := [("Authorization", "token " ++ token)]
  , params := [("sha", branch), ("per_page", "1")] }

end Azure

/-!
## Delta Transformer, ChromaDB variant (`process_changes` body)
-/

namespace Chroma

/-- The `metadata` dict stored with each delta (lines 90-99). -/
structure Metadata where
  filename : String
  commit_sha : String
  status : String
  additions : Nat
  deletions : Nat
  timestamp : String
  author : String
  commit_message : String
  deriving DecidableEq, Repr

/-- The `delta_description` f-string (lines 72-81), rendered with the
source's exact 8-space indentation and trailing spaces. -/
def delta_description (f : FileChange) (info : CommitInfo) : String :=
  "\n        File: " ++ f.filename ++
  "\n        Status: " ++ f.status ++
  "\n        Changes: +" ++ toString f.additions ++ " -" ++ toString f.deletions ++
  "\n        \n        Patch:\n        " ++ f.patch.getD "" ++
  "\n        \n        Commit Message: " ++ commit_message info "No message provided" ++
  "\n        "

/-- `delta_id = f"..."` (line 84): first 8 characters of the sha, an
underscore, the filename. -/
def delta_id (f : FileChange) (info : CommitInfo) : String :=
  (info.sha.take 8) ++ "_" ++ f.filename

/-- The `metadata` dict (lines 90-99). `timestamp` is the
`datetime.now().isoformat()` value computed once per `process_changes` call. -/
def metadataOf (f : FileChange) (info : CommitInfo) (timestamp : String) : Metadata :=
  { filename := f.filename
  , commit_sha := info.sha
  , status := f.status
  , additions := f.additions
  , deletions := f.deletions
  , timestamp := timestamp
  , author := author_name info
  , commit_message := commit_message info "No message provided" }

/-- The normalized record this variant derives from one changed file and the
revision metadata (id, descriptive text, metadata mapping). -/
structure IndexableUnit where
  id : String
  description : String
  metadata : Metadata
  deriving DecidableEq, Repr

/-- The Delta Transformer of this variant: everything `process_changes`
derives from `(file, commit_info)` before calling the embedder and the sink.
`timestamp` is the wall-clock reading. -/
def transform (f : FileChange) (info : CommitInfo) (timestamp : String) : IndexableUnit :=
  { id := delta_id f info
  , description := delta_description f info
  , metadata := metadataOf f info timestamp }

/-- Arguments of one `collection.add(...)` call (lines 102-107). -/
structure AddCall where
  documents : List String
  metadatas : List Metadata
  ids : List String
  embeddings : List Vec
  deriving DecidableEq, Repr

end Chroma

/-!
## Delta Transformer, Azure variant (`index_commit_delta`)
-/

namespace Azure

/-- The `delta_description` f-string (lines 226-232), rendered with the
source's exact 12-space indentation. -/
def delta_description (f : FileChange) (info : CommitInfo) : String :=
  "\n            File: " ++ f.filename ++
  "\n            Status: " ++ f.status ++
  "\n            Changes: +" ++ toString f.additions ++ " -" ++ toString f.deletions ++
  "\n            Patch: " ++ f.patch.getD "" ++
  "\n            Commit Message: " ++ commit_message info "" ++
  "\n            "

/-- `doc_id = f"..."` (line 223): the full sha, an underscore, the filename. -/
def doc_id (f : FileChange) (info : CommitInfo) : String :=
  info.sha ++ "_" ++ f.filename

/-- The fields of the uploaded document that `index_commit_delta` derives
from `(file, commit_info)` and the wall clock — everything but the vector. -/
structure IndexableUnit where
  id : String
  filename : String
  content : String
  commit_sha : String
  status : String
  additions : Nat
  deletions : Nat
  timestamp : String
  deriving DecidableEq, Repr

/-- The Delta Transformer of this variant (document fields, lines 238-246).
`timestamp` is the `datetime.datetime.now().isoformat()` reading. -/
def transform (f : FileChange) (info : CommitInfo) (timestamp : String) : IndexableUnit :=
  { id := doc_id f info
  , filename := f.filename
  , content := delta_description f info
  , commit_sha := info.sha
  , status := f.status
  , additions := f.additions
  , deletions := f.deletions
  , timestamp := timestamp }

/-- The full document passed to `upload_documents` (lines 238-248). -/
structure Document extends IndexableUnit where
  content_vector : Vec
  deriving DecidableEq, Repr

end Azure

/-!
## Cycle semantics

`Event` records every observable call a cycle makes, in order. `Env` bundles
the external collaborators' behaviour for one cycle: the head-resolution
result, the diff and metadata responses, the embedding provider (`none`
models a raised exception), the sink outcome keyed by document id (`false`
models a raised exception), and the wall-clock reading.
-/

/-- One observable external call of a sync cycle. -/
inductive Event where
  /-- `get_commit_diff(base, head)` was invoked. -/
  | diffCall (base head : String)
  /-- `get_commit_info(sha)` was invoked. -/
  | metadataCall (sha : String)
  /-- The embedding provider was invoked on this text. -/
  | embedCall (text : String)
  /-- `collection.add(...)` was invoked (ChromaDB sink). -/
  | chromaAdd (call : Chroma.AddCall)
  /-- `upload_documents([doc])` was invoked (Azure sink). -/
  | azureUpload (doc : Azure.Document)
  /-- `write_previous_hash(h)` was invoked. -/
  | writePointer (h : String)
  /-- An exception was caught and printed (`except` branch of
  `index_commit_delta`). -/
  | errLog (context : String)
  deriving DecidableEq, Repr

/-- External collaborators' behaviour during one cycle. -/
structure Env where
  /-- Result of `get_latest_commit_hash()`. -/
  latest : Option String
  /-- Result of `get_commit_diff(...)`; `none` models a failed fetch. -/
  diff : Option DiffResp
  /-- Result of `get_commit_info(...)`; `none` models a failed fetch. -/
  commitInfo : Option CommitInfo
  /-- The embedding provider; `none` models a raised exception. -/
  embed : String → Option Vec
  /-- Whether the sink call for a given document id succeeds. -/
  sinkOk : String → Bool
  /-- `datetime.now().isoformat()`. -/
  now : String

/-- Outcome of one sync cycle. -/
structure CycleResult where
  /-- The external calls made, in order. -/
  trace : List Event
  /-- Hash-file state after the cycle. -/
  finalState : Option String
  /-- `true` when an uncaught Python exception escaped the cycle. -/
  crashed : Bool
  deriving Repr

def isUpsertEvent : Event → Bool
  | .chromaAdd _ => true
  | .azureUpload _ => true
  | _ => false

def isEmbedEvent : Event → Bool
  | .embedCall _ => true
  | _ => false

def isDiffEvent : Event → Bool
  | .diffCall _ _ => true
  | _ => false

def isWriteEvent : Event → Bool
  | .writePointer _ => true
  | _ => false

def isErrEvent : Event → Bool
  | .errLog _ => true
  | _ => false

/-- Number of sink submissions in a trace. -/
def upsertCount (tr : List Event) : Nat := (tr.filter isUpsertEvent).length

/-- Number of embedding-provider calls in a trace. -/
def embedCount (tr : List Event) : Nat := (tr.filter isEmbedEvent).length

/-- Number of remote diff fetches in a trace. -/
def diffCount (tr : List Event) : Nat := (tr.filter isDiffEvent).length

/-- Number of pointer writes in a trace. -/
def writeCount (tr : List Event) : Nat := (tr.filter isWriteEvent).length

/-- Number of caught-and-logged per-entry failures in a trace. -/
def errCount (tr : List Event) : Nat := (tr.filter isErrEvent).length

/-- The document ids submitted to the sink, in order. -/
def upsertIds (tr : List Event) : List String :=
  tr.flatMap fun e =>
    match e with
    | .chromaAdd c => c.ids
    | .azureUpload d => [d.id]
    | _ => []

namespace Chroma

/-- `process_changes(changed_files, commit_info)` (lines 64-109), one file at
a time. `commit_info` may be `None` (the orchestrator never checks it): the
first loop iteration then raises `AttributeError` while rendering the
description, before any embed or sink call. An embedding or sink exception
also propagates (there is no `try` in this variant). Returns the events
emitted and whether an exception escaped. -/
def process_changes (files : List FileChange) (info? : Option CommitInfo)
    (embed : String → Option Vec) (sinkOk : String → Bool) (timestamp : String) :
    List Event × Bool :=
  match files with
  | [] => ([], false)
  | f :: rest =>
    match info? with
    | none => ([], true)
    | some info =>
      let u := transform f info timestamp
      match embed u.description with
      | none => ([Event.embedCall u.description], true)
      | some v =>
        let call : AddCall :=
          { documents := [u.description], metadatas := [u.metadata]
          , ids := [u.id], embeddings := [v] }
        if sinkOk u.id then
          let (evs, crashed) := process_changes rest info? embed sinkOk timestamp
          (Event.embedCall u.description :: Event.chromaAdd call :: evs, crashed)
        else
          ([Event.embedCall u.description, Event.chromaAdd call], true)

/-- `sync_with_vector_db()` (lines 120-148) as a function of the hash-file
state and the collaborators' behaviour. -/
def sync_with_vector_db (st : Option String) (env : Env) : CycleResult :=
  match env.latest with
  | none => { trace := [], finalState := st, crashed := false }
  | some l =>
    if l.isEmpty then { trace := [], finalState := st, crashed := false }
    else
      match read_previous_hash st with
      | none =>
        { trace := [Event.writePointer l], finalState := write_previous_hash l
        , crashed := false }
      | some p =>
        if p.isEmpty then
          { trace := [Event.writePointer l], finalState := write_previous_hash l
          , crashed := false }
        else if p = l then { trace := [], finalState := st, crashed := false }
        else
          let evs0 := [Event.diffCall p l, Event.metadataCall l]
          match env.diff with
          | none => { trace := evs0, finalState := st, crashed := false }
          | some d =>
            match d.files with
            | none => { trace := evs0, finalState := st, crashed := false }
            | some fs =>
              let (evs, crashed) :=
                process_changes fs env.commitInfo env.embed env.sinkOk env.now
              if crashed then
                { trace := evs0 ++ evs, finalState := st, crashed := true }
              else
                { trace := evs0 ++ evs ++ [Event.writePointer l]
                , finalState := write_previous_hash l, crashed := false }

end Chroma

namespace Azure

/-- `index_commit_delta(delta_info, commit_info)` (lines 219-255). The whole
body sits in a `try` whose `except` catches every exception and prints an
error, so a `None` commit_info, a failed embedding, or a failed upload each
yield one logged error and never escape. Returns the events emitted. -/
def index_commit_delta (f : FileChange) (info? : Option CommitInfo)
    (embed : String → Option Vec) (sinkOk : String → Bool) (timestamp : String) :
    List Event :=
  match info? with
  | none => [Event.errLog "Error indexing commit delta"]
  | some info =>
    let u := transform f info timestamp
    match embed u.content with
    | none => [Event.embedCall u.content, Event.errLog "Error indexing commit delta"]
    | some v =>
      let doc : Document := { u with content_vector := v }
      if sinkOk u.id then
        [Event.embedCall u.content, Event.azureUpload doc]
      else
        [Event.embedCall u.content, Event.azureUpload doc
        , Event.errLog "Error indexing commit delta"]

/-- `process_commits()` (lines 257-286) as a function of the hash-file state
and the collaborators' behaviour. -/
def process_commits (st : Option String) (env : Env) : CycleResult :=
  match env.latest with
  | none => { trace := [], finalState := st, crashed := false }
  | some l =>
    if l.isEmpty then { trace := [], finalState := st, crashed := false }
    else
      match read_previous_hash st with
      | none =>
        { trace := [Event.writePointer l], finalState := write_previous_hash l
        , crashed := false }
      | some p =>
        if p.isEmpty then
          { trace := [Event.writePointer l], finalState := write_previous_hash l
          , crashed := false }
        else if p = l then { trace := [], finalState := st, crashed := false }
        else
          let evs0 := [Event.diffCall p l, Event.metadataCall l]
          match env.diff with
          | none => { trace := evs0, finalState := st, crashed := false }
          | some d =>
            match d.files with
            | none => { trace := evs0, finalState := st, crashed := false }
            | some fs =>
              let evs := fs.flatMap fun f =>
                index_commit_delta f env.commitInfo env.embed env.sinkOk env.now
              { trace := evs0 ++ evs ++ [Event.writePointer l]
              , finalState := write_previous_hash l, crashed := false }

end Azure

/-!
## Vector Index Sink contract

Modelled from the spec: the Vector Index Sink's internal upsert-by-id
semantics (ChromaDB / Azure Cognitive Search are external services, not part
of this repository's source). §4.5: "Upsert semantics required (not
insert-only): resubmitting the same identifier must replace, not duplicate,
the stored record." The index is an id-keyed association list; `sink_upsert`
replaces the record stored under an existing id in place and appends a fresh
id at the end.
-/

/-- Modelled from the spec: upsert-by-id into the vector index (§4.5). -/
def sink_upsert {α : Type} (idx : List (String × α)) (id : String) (r : α) :
    List (String × α) :=
  if idx.any (fun p => p.1 = id) then
    idx.map (fun p => if p.1 = id then (id, r) else p)
  else
    idx ++ [(id, r)]

/-- The `files` array of a diff response: `none` when the fetch failed or the
response lacks the `files` key (the branch the orchestrators treat as
"No file changes detected"). -/
def diffFiles : Option DiffResp → Option (List FileChange)
  | none => none
  | some d => d.files

/-!
## Concrete scenario inputs used in the claim instances below
-/

/-- The first changed entry of the spec's §8 scenario. -/
def fileC4x : FileChange :=
  { filename := "x.py", status := "modified", additions := 3, deletions := 1
  , changes := 4, patch := some "@@ -1 +1 @@" }

/-- The second changed entry of the spec's §8 scenario. -/
def fileC4y : FileChange :=
  { filename := "y.py", status := "added", additions := 10, deletions := 0
  , changes := 10, patch := some "@@ -0 +1,10 @@" }

/-- Revision metadata for head `"bbb222"`. -/
def infoC4 : CommitInfo :=
  { sha := "bbb222"
  , commit := some { message := some "fix x and add y"
                   , author := some { name := some "Alice" } } }

/-- Healthy collaborators for the §8 scenario. -/
def envC4 : Env :=
  { latest := some "bbb222"
  , diff := some { files := some [fileC4x, fileC4y] }
  , commitInfo := some infoC4
  , embed := fun _ => some [1]
  , sinkOk := fun _ => true
  , now := "2024-01-01T00:00:00" }

/-- A one-entry delta whose revision-metadata fetch failed. -/
def envC1 : Env :=
  { latest := some "bbb222"
  , diff := some { files := some [fileC4x] }
  , commitInfo := none
  , embed := fun _ => some [1]
  , sinkOk := fun _ => true
  , now := "2024-01-01T00:00:00" }

/-- A cycle whose diff fetch failed. -/
def envC1w : Env :=
  { latest := some "bbb222"
  , diff := none
  , commitInfo := some infoC4
  , embed := fun _ => some [1]
  , sinkOk := fun _ => true
  , now := "2024-01-01T00:00:00" }

/-- A one-entry delta whose embedding provider raises on every input. -/
def envC7 : Env :=
  { latest := some "bbb222"
  , diff := some { files := some [fileC4x] }
  , commitInfo := some infoC4
  , embed := fun _ => none
  , sinkOk := fun _ => true
  , now := "2024-01-01T00:00:00" }

/-- A two-entry delta whose embedding provider fails exactly on the first
entry's description. -/
def envC7w : Env :=
  { latest := some "bbb222"
  , diff := some { files := some [fileC4x, fileC4y] }
  , commitInfo := some infoC4
  , embed := fun s => if s = Azure.delta_description fileC4x infoC4 then none else some [1]
  , sinkOk := fun _ => true
  , now := "2024-01-01T00:00:00" }

/-- A healthy head resolution; no other collaborator is consulted. -/
def envC5w : Env :=
  { latest := some "bbb222"
  , diff := none
  , commitInfo := none
  , embed := fun _ => some [1]
  , sinkOk := fun _ => true
  , now := "2024-01-01T00:00:00" }

/-- A cycle against an up-to-date pointer. -/
def envC6w : Env :=
  { latest := some "aaa111"
  , diff := none
  , commitInfo := none
  , embed := fun _ => some [1]
  , sinkOk := fun _ => true
  , now := "2024-01-01T00:00:00" }

/-!
## Helper lemmas
-/

@[simp]
theorem upsertCount_append (a b : List Event) :
    upsertCount (a ++ b) = upsertCount a + upsertCount b := by
  simp [upsertCount, List.filter_append]

@[simp]
theorem embedCount_append (a b : List Event) :
    embedCount (a ++ b) = embedCount a + embedCount b := by
  simp [embedCount, List.filter_append]

@[simp]
theorem writeCount_append (a b : List Event) :
    writeCount (a ++ b) = writeCount a + writeCount b := by
  simp [writeCount, List.filter_append]

@[simp]
theorem errCount_append (a b : List Event) :
    errCount (a ++ b) = errCount a + errCount b := by
  simp [errCount, List.filter_append]

@[simp]
theorem diffCount_append (a b : List Event) :
    diffCount (a ++ b) = diffCount a + diffCount b := by
  simp [diffCount, List.filter_append]

/-!
## Claim instances
-/

/-- Claim C10: writing a pointer string with no surrounding whitespace via
the Revision Tracker and then reading it back returns exactly that string
(`read_previous_hash` strips the stored contents, `write_previous_hash`
stores them verbatim). -/
theorem claim_C10_tracker_round_trip (p : String) (h : pyStrip p = p) :
    read_previous_hash (write_previous_hash p) = some p := by
  simp [read_previous_hash, write_previous_hash, h]

theorem claim_C10_tracker_round_trip_witness :
    pyStrip "abc123" = "abc123" ∧
    read_previous_hash (write_previous_hash "abc123") = some "abc123" :=
  ⟨by decide, claim_C10_tracker_round_trip "abc123" (by decide)⟩

/-- Claim C3: submitting a record to the vector-index sink twice under the
same identifier leaves the index in the same state as submitting it once —
the second submission replaces the stored record (spec-modelled upsert
contract, §4.5). -/
theorem claim_C3_upsert_idempotent {α : Type} (idx : List (String × α))
    (k : String) (r : α) :
    sink_upsert (sink_upsert idx k r) k r = sink_upsert idx k r := by
  unfold sink_upsert
  by_cases h : idx.any (fun p => p.1 = k) = true
  · rw [if_pos h]
    have hmem : (idx.map (fun p => if p.1 = k then (k, r) else p)).any
        (fun p => p.1 = k) = true := by
      rw [List.any_eq_true] at h ⊢
      obtain ⟨p, hp, hpid⟩ := h
      refine ⟨if p.1 = k then (k, r) else p, List.mem_map_of_mem _ hp, ?_⟩
      simp only [decide_eq_true_eq] at hpid
      simp [hpid]
    rw [if_pos hmem, List.map_map]
    refine List.map_congr_left (fun p _ => ?_)
    by_cases hp : p.1 = k <;> simp [Function.comp, hp]
  · rw [if_neg h]
    have hmem : (idx ++ [(k, r)]).any (fun p => p.1 = k) = true := by
      simp
    rw [if_pos hmem, List.map_append]
    have hall : ∀ p ∈ idx, ¬ p.1 = k := by
      intro p hp hpid
      exact h (List.any_eq_true.mpr ⟨p, hp, by simp [hpid]⟩)
    have hid : idx.map (fun p => if p.1 = k then (k, r) else p) = idx := by
      conv_rhs => rw [← List.map_id idx]
      exact List.map_congr_left (fun p hp => by simp [hall p hp])
    simp [hid]

/-- Claim C8 (amended): the Delta Transformer is deterministic in everything
except the timestamp field of the metadata mapping: for equal
`(ChangedEntry, RevisionMetadata)` inputs, the identifier, the descriptive
text, and every non-timestamp metadata field agree across invocations even
when the wall-clock readings differ, in both variants. -/
theorem claim_C8_transformer_deterministic_except_timestamp
    (f : FileChange) (info : CommitInfo) (t₁ t₂ : String) :
    (Chroma.transform f info t₁).id = (Chroma.transform f info t₂).id ∧
    (Chroma.transform f info t₁).description
      = (Chroma.transform f info t₂).description ∧
    (Chroma.transform f info t₁).metadata.filename
      = (Chroma.transform f info t₂).metadata.filename ∧
    (Chroma.transform f info t₁).metadata.commit_sha
      = (Chroma.transform f info t₂).metadata.commit_sha ∧
    (Chroma.transform f info t₁).metadata.status
      = (Chroma.transform f info t₂).metadata.status ∧
    (Chroma.transform f info t₁).metadata.additions
      = (Chroma.transform f info t₂).metadata.additions ∧
    (Chroma.transform f info t₁).metadata.deletions
      = (Chroma.transform f info t₂).metadata.deletions ∧
    (Chroma.transform f info t₁).metadata.author
      = (Chroma.transform f info t₂).metadata.author ∧
    (Chroma.transform f info t₁).metadata.commit_message
      = (Chroma.transform f info t₂).metadata.commit_message ∧
    (Azure.transform f info t₁).id = (Azure.transform f info t₂).id ∧
    (Azure.transform f info t₁).content = (Azure.transform f info t₂).content ∧
    (Azure.transform f info t₁).filename = (Azure.transform f info t₂).filename ∧
    (Azure.transform f info t₁).commit_sha
      = (Azure.transform f info t₂).commit_sha ∧
    (Azure.transform f info t₁).status = (Azure.transform f info t₂).status ∧
    (Azure.transform f info t₁).additions
      = (Azure.transform f info t₂).additions ∧
    (Azure.transform f info t₁).deletions
      = (Azure.transform f info t₂).deletions :=
  ⟨rfl, rfl, rfl, rfl, rfl, rfl, rfl, rfl, rfl, rfl, rfl, rfl, rfl, rfl, rfl, rfl⟩

/-- Claim C8 is false as stated: the transformers read the wall clock, so two
invocations on equal `(ChangedEntry, RevisionMetadata)` inputs at different
times produce different results (the metadata timestamp differs). -/
theorem claim_C8_counterexample :
    Chroma.transform fileC4x infoC4 "2024-01-01T00:00:00"
      ≠ Chroma.transform fileC4x infoC4 "2024-01-02T00:00:00" ∧
    Azure.transform fileC4x infoC4 "2024-01-01T00:00:00"
      ≠ Azure.transform fileC4x infoC4 "2024-01-02T00:00:00" := by
  constructor
  · intro h
    have h2 : ("2024-01-01T00:00:00" : String) = "2024-01-02T00:00:00" :=
      congrArg (fun u => u.metadata.timestamp) h
    exact absurd h2 (by decide)
  · intro h
    have h2 : ("2024-01-01T00:00:00" : String) = "2024-01-02T00:00:00" :=
      congrArg (fun u => u.timestamp) h
    exact absurd h2 (by decide)

/-- Claim C9: the Azure variant's head resolution sends `sha=branch` and
`per_page=1`; the ChromaDB variant builds that same `params` dict but sends
the request without it (line 36 passes only `url` and `headers`), so its
request carries no query parameters. Both variants return the first returned
commit's sha, or absent on a failed request or an empty list. -/
theorem claim_C9_head_resolution_eval :
    (Chroma.latest_commit_request "Blendabhishek" "demo" "tok").params = [] ∧
    Chroma.latest_commit_params "master" = [("sha", "master"), ("per_page", "1")] ∧
    (Azure.latest_commit_request "Blendabhishek" "demo" "tok" "master").params
      = [("sha", "master"), ("per_page", "1")] ∧
    latest_hash_of_response (some [{ sha := "bbb222" }]) = some "bbb222" ∧
    latest_hash_of_response (some []) = none ∧
    latest_hash_of_response none = none :=
  ⟨rfl, rfl, rfl, rfl, rfl, rfl⟩

/-!
## Cycle path characterizations
-/

theorem Chroma.sync_bootstrap (st : Option String) (env : Env) (l : String)
    (h1 : env.latest = some l) (h2 : l.isEmpty = false)
    (h3 : falsyStr (read_previous_hash st) = true) :
    Chroma.sync_with_vector_db st env =
      { trace := [Event.writePointer l], finalState := some l, crashed := false } := by
  unfold Chroma.sync_with_vector_db
  rw [h1]
  cases hrp : read_previous_hash st with
  | none => simp [h2, write_previous_hash]
  | some p =>
    rw [hrp] at h3
    simp only [falsyStr] at h3
    simp [h2, h3, write_previous_hash]

theorem Azure.commits_bootstrap (st : Option String) (env : Env) (l : String)
    (h1 : env.latest = some l) (h2 : l.isEmpty = false)
    (h3 : falsyStr (read_previous_hash st) = true) :
    Azure.process_commits st env =
      { trace := [Event.writePointer l], finalState := some l, crashed := false } := by
  unfold Azure.process_commits
  rw [h1]
  cases hrp : read_previous_hash st with
  | none => simp [h2, write_previous_hash]
  | some p =>
    rw [hrp] at h3
    simp only [falsyStr] at h3
    simp [h2, h3, write_previous_hash]

theorem Chroma.sync_up_to_date (st : Option String) (env : Env) (p : String)
    (h1 : env.latest = some p) (h3 : read_previous_hash st = some p) :
    Chroma.sync_with_vector_db st env =
      { trace := [], finalState := st, crashed := false } := by
  unfold Chroma.sync_with_vector_db
  rw [h1, h3]
  by_cases hp : p.isEmpty <;> simp [hp]

theorem Azure.commits_up_to_date (st : Option String) (env : Env) (p : String)
    (h1 : env.latest = some p) (h3 : read_previous_hash st = some p) :
    Azure.process_commits st env =
      { trace := [], finalState := st, crashed := false } := by
  unfold Azure.process_commits
  rw [h1, h3]
  by_cases hp : p.isEmpty <;> simp [hp]

theorem Chroma.sync_diff_absent (st : Option String) (env : Env) (l p : String)
    (h1 : env.latest = some l) (h2 : l.isEmpty = false)
    (h3 : read_previous_hash st = some p) (h4 : p.isEmpty = false) (h5 : p ≠ l)
    (h6 : diffFiles env.diff = none) :
    Chroma.sync_with_vector_db st env =
      { trace := [Event.diffCall p l, Event.metadataCall l]
      , finalState := st, crashed := false } := by
  unfold Chroma.sync_with_vector_db
  rw [h1, h3]
  cases henv : env.diff with
  | none => simp [h2, h4, h5]
  | some d =>
    rw [henv] at h6
    simp only [diffFiles] at h6
    simp [h2, h4, h5, h6]

theorem Azure.commits_diff_absent (st : Option String) (env : Env) (l p : String)
    (h1 : env.latest = some l) (h2 : l.isEmpty = false)
    (h3 : read_previous_hash st = some p) (h4 : p.isEmpty = false) (h5 : p ≠ l)
    (h6 : diffFiles env.diff = none) :
    Azure.process_commits st env =
      { trace := [Event.diffCall p l, Event.metadataCall l]
      , finalState := st, crashed := false } := by
  unfold Azure.process_commits
  rw [h1, h3]
  cases henv : env.diff with
  | none => simp [h2, h4, h5]
  | some d =>
    rw [henv] at h6
    simp only [diffFiles] at h6
    simp [h2, h4, h5, h6]

theorem Chroma.sync_delta_path (st : Option String) (env : Env) (l p : String)
    (fs : List FileChange)
    (h1 : env.latest = some l) (h2 : l.isEmpty = false)
    (h3 : read_previous_hash st = some p) (h4 : p.isEmpty = false) (h5 : p ≠ l)
    (h6 : diffFiles env.diff = some fs) :
    Chroma.sync_with_vector_db st env =
      (if (Chroma.process_changes fs env.commitInfo env.embed env.sinkOk env.now).2 then
        { trace := [Event.diffCall p l, Event.metadataCall l]
            ++ (Chroma.process_changes fs env.commitInfo env.embed env.sinkOk env.now).1
        , finalState := st, crashed := true }
      else
        { trace := ([Event.diffCall p l, Event.metadataCall l]
            ++ (Chroma.process_changes fs env.commitInfo env.embed env.sinkOk env.now).1)
            ++ [Event.writePointer l]
        , finalState := some l, crashed := false }) := by
  obtain ⟨d, hd, hdf⟩ : ∃ d, env.diff = some d ∧ d.files = some fs := by
    cases henv : env.diff with
    | none => rw [henv] at h6; exact absurd h6 (by simp [diffFiles])
    | some d => rw [henv] at h6; exact ⟨d, rfl, by simpa [diffFiles] using h6⟩
  unfold Chroma.sync_with_vector_db
  rw [h1, h3, hd]
  rcases hpc : Chroma.process_changes fs env.commitInfo env.embed env.sinkOk env.now
    with ⟨evs, crashed⟩
  simp only [h2, h4, h5, hdf, hpc, Bool.false_eq_true, if_false]
  cases crashed <;> simp [write_previous_hash]

theorem Azure.commits_delta_path (st : Option String) (env : Env) (l p : String)
    (fs : List FileChange)
    (h1 : env.latest = some l) (h2 : l.isEmpty = false)
    (h3 : read_previous_hash st = some p) (h4 : p.isEmpty = false) (h5 : p ≠ l)
    (h6 : diffFiles env.diff = some fs) :
    Azure.process_commits st env =
      { trace := ([Event.diffCall p l, Event.metadataCall l]
          ++ fs.flatMap (fun f =>
              Azure.index_commit_delta f env.commitInfo env.embed env.sinkOk env.now))
          ++ [Event.writePointer l]
      , finalState := some l, crashed := false } := by
  obtain ⟨d, hd, hdf⟩ : ∃ d, env.diff = some d ∧ d.files = some fs := by
    cases henv : env.diff with
    | none => rw [henv] at h6; exact absurd h6 (by simp [diffFiles])
    | some d => rw [henv] at h6; exact ⟨d, rfl, by simpa [diffFiles] using h6⟩
  unfold Azure.process_commits
  rw [h1, h3, hd]
  simp [h2, h4, h5, hdf, write_previous_hash]

/-!
## Per-entry processing lemmas
-/

theorem Chroma.process_changes_cons_ok (f : FileChange) (rest : List FileChange)
    (info : CommitInfo) (embed : String → Option Vec) (sinkOk : String → Bool)
    (t : String) (v : Vec)
    (hv : embed (Chroma.delta_description f info) = some v)
    (hs : sinkOk (Chroma.delta_id f info) = true) :
    Chroma.process_changes (f :: rest) (some info) embed sinkOk t =
      (Event.embedCall (Chroma.delta_description f info)
        :: Event.chromaAdd
             { documents := [Chroma.delta_description f info]
             , metadatas := [Chroma.metadataOf f info t]
             , ids := [Chroma.delta_id f info]
             , embeddings := [v] }
        :: (Chroma.process_changes rest (some info) embed sinkOk t).1,
       (Chroma.process_changes rest (some info) embed sinkOk t).2) := by
  rcases hrec : Chroma.process_changes rest (some info) embed sinkOk t with ⟨evs, c⟩
  simp [Chroma.process_changes, Chroma.transform, hv, hs, hrec]

theorem Chroma.process_changes_cons_embed_fail (f : FileChange)
    (rest : List FileChange) (info : CommitInfo) (embed : String → Option Vec)
    (sinkOk : String → Bool) (t : String)
    (hv : embed (Chroma.delta_description f info) = none) :
    Chroma.process_changes (f :: rest) (some info) embed sinkOk t =
      ([Event.embedCall (Chroma.delta_description f info)], true) := by
  simp [Chroma.process_changes, Chroma.transform, hv]

theorem Chroma.process_changes_all_ok (fs : List FileChange) (info : CommitInfo)
    (embed : String → Option Vec) (sinkOk : String → Bool) (t : String)
    (he : ∀ f ∈ fs, (embed (Chroma.delta_description f info)).isSome = true)
    (hs : ∀ i, sinkOk i = true) :
    (Chroma.process_changes fs (some info) embed sinkOk t).2 = false ∧
    upsertCount (Chroma.process_changes fs (some info) embed sinkOk t).1 = fs.length ∧
    embedCount (Chroma.process_changes fs (some info) embed sinkOk t).1 = fs.length ∧
    writeCount (Chroma.process_changes fs (some info) embed sinkOk t).1 = 0 ∧
    errCount (Chroma.process_changes fs (some info) embed sinkOk t).1 = 0 := by
  induction fs with
  | nil =>
    simp [Chroma.process_changes, upsertCount, embedCount, writeCount, errCount]
  | cons f rest ih =>
    obtain ⟨v, hv⟩ := Option.isSome_iff_exists.mp (he f (by simp))
    have hrest := ih (fun g hg => he g (by simp [hg]))
    rw [Chroma.process_changes_cons_ok f rest info embed sinkOk t v hv (hs _)]
    simp [upsertCount, embedCount, writeCount, errCount, List.filter,
      isUpsertEvent, isEmbedEvent, isWriteEvent, isErrEvent] at hrest ⊢
    exact hrest

theorem Azure.index_commit_delta_ok (f : FileChange) (info : CommitInfo)
    (embed : String → Option Vec) (sinkOk : String → Bool) (t : String) (v : Vec)
    (hv : embed (Azure.delta_description f info) = some v)
    (hs : sinkOk (Azure.doc_id f info) = true) :
    Azure.index_commit_delta f (some info) embed sinkOk t =
      [Event.embedCall (Azure.delta_description f info)
      , Event.azureUpload { Azure.transform f info t with content_vector := v }] := by
  simp [Azure.index_commit_delta, Azure.transform, hv, hs]

theorem Azure.index_commit_delta_embed_fail (f : FileChange) (info : CommitInfo)
    (embed : String → Option Vec) (sinkOk : String → Bool) (t : String)
    (hv : embed (Azure.delta_description f info) = none) :
    Azure.index_commit_delta f (some info) embed sinkOk t =
      [Event.embedCall (Azure.delta_description f info)
      , Event.errLog "Error indexing commit delta"] := by
  simp [Azure.index_commit_delta, Azure.transform, hv]

theorem Azure.flatMap_counts_all_ok (fs : List FileChange) (info : CommitInfo)
    (embed : String → Option Vec) (sinkOk : String → Bool) (t : String)
    (he : ∀ f ∈ fs, (embed (Azure.delta_description f info)).isSome = true)
    (hs : ∀ i, sinkOk i = true) :
    upsertCount (fs.flatMap fun f =>
      Azure.index_commit_delta f (some info) embed sinkOk t) = fs.length ∧
    embedCount (fs.flatMap fun f =>
      Azure.index_commit_delta f (some info) embed sinkOk t) = fs.length ∧
    writeCount (fs.flatMap fun f =>
      Azure.index_commit_delta f (some info) embed sinkOk t) = 0 ∧
    errCount (fs.flatMap fun f =>
      Azure.index_commit_delta f (some info) embed sinkOk t) = 0 := by
  induction fs with
  | nil => simp [upsertCount, embedCount, writeCount, errCount]
  | cons f rest ih =>
    obtain ⟨v, hv⟩ := Option.isSome_iff_exists.mp (he f (by simp))
    have hrest := ih (fun g hg => he g (by simp [hg]))
    rw [List.flatMap_cons, Azure.index_commit_delta_ok f info embed sinkOk t v hv (hs _)]
    simp [upsertCount, embedCount, writeCount, errCount, List.filter,
      isUpsertEvent, isEmbedEvent, isWriteEvent, isErrEvent] at hrest ⊢
    exact hrest

/-- Claim C5: when the Revision Tracker has no prior pointer and the head
resolves to revision `h`, both variants write `h` as the tracked pointer and
end the cycle having indexed zero units: no diff fetch, no embed call, no
upsert call. -/
theorem claim_C5_bootstrap_writes_head (st : Option String) (env : Env)
    (h : String) (h1 : env.latest = some h) (h2 : h.isEmpty = false)
    (h3 : falsyStr (read_previous_hash st) = true) :
    (Chroma.sync_with_vector_db st env).trace = [Event.writePointer h] ∧
    (Chroma.sync_with_vector_db st env).finalState = some h ∧
    diffCount (Chroma.sync_with_vector_db st env).trace = 0 ∧
    embedCount (Chroma.sync_with_vector_db st env).trace = 0 ∧
    upsertCount (Chroma.sync_with_vector_db st env).trace = 0 ∧
    (Azure.process_commits st env).trace = [Event.writePointer h] ∧
    (Azure.process_commits st env).finalState = some h ∧
    diffCount (Azure.process_commits st env).trace = 0 ∧
    embedCount (Azure.process_commits st env).trace = 0 ∧
    upsertCount (Azure.process_commits st env).trace = 0 := by
  rw [Chroma.sync_bootstrap st env h h1 h2 h3, Azure.commits_bootstrap st env h h1 h2 h3]
  simp [diffCount, embedCount, upsertCount, List.filter,
    isDiffEvent, isEmbedEvent, isUpsertEvent]

theorem claim_C5_bootstrap_writes_head_witness :
    envC5w.latest = some "bbb222" ∧ ("bbb222" : String).isEmpty = false ∧
    falsyStr (read_previous_hash none) = true ∧
    ((Chroma.sync_with_vector_db none envC5w).trace
        = [Event.writePointer "bbb222"] ∧
      (Chroma.sync_with_vector_db none envC5w).finalState = some "bbb222" ∧
      diffCount (Chroma.sync_with_vector_db none envC5w).trace = 0 ∧
      embedCount (Chroma.sync_with_vector_db none envC5w).trace = 0 ∧
      upsertCount (Chroma.sync_with_vector_db none envC5w).trace = 0 ∧
      (Azure.process_commits none envC5w).trace = [Event.writePointer "bbb222"] ∧
      (Azure.process_commits none envC5w).finalState = some "bbb222" ∧
      diffCount (Azure.process_commits none envC5w).trace = 0 ∧
      embedCount (Azure.process_commits none envC5w).trace = 0 ∧
      upsertCount (Azure.process_commits none envC5w).trace = 0) :=
  ⟨rfl, rfl, rfl,
    claim_C5_bootstrap_writes_head none envC5w "bbb222" rfl rfl rfl⟩

/-- Claim C6: when the tracked pointer equals the resolved head, both
variants make zero remote diff calls, index zero units, and leave the
tracked pointer state unchanged. -/
theorem claim_C6_up_to_date_noop (st : Option String) (env : Env) (p : String)
    (h1 : env.latest = some p) (h3 : read_previous_hash st = some p) :
    (Chroma.sync_with_vector_db st env).trace = [] ∧
    (Chroma.sync_with_vector_db st env).finalState = st ∧
    diffCount (Chroma.sync_with_vector_db st env).trace = 0 ∧
    upsertCount (Chroma.sync_with_vector_db st env).trace = 0 ∧
    (Azure.process_commits st env).trace = [] ∧
    (Azure.process_commits st env).finalState = st ∧
    diffCount (Azure.process_commits st env).trace = 0 ∧
    upsertCount (Azure.process_commits st env).trace = 0 := by
  rw [Chroma.sync_up_to_date st env p h1 h3, Azure.commits_up_to_date st env p h1 h3]
  simp [diffCount, upsertCount, List.filter]

theorem claim_C6_up_to_date_noop_witness :
    envC6w.latest = some "aaa111" ∧
    read_previous_hash (some "aaa111") = some "aaa111" ∧
    ((Chroma.sync_with_vector_db (some "aaa111") envC6w).trace = [] ∧
      (Chroma.sync_with_vector_db (some "aaa111") envC6w).finalState
        = some "aaa111" ∧
      diffCount (Chroma.sync_with_vector_db (some "aaa111") envC6w).trace = 0 ∧
      upsertCount (Chroma.sync_with_vector_db (some "aaa111") envC6w).trace = 0 ∧
      (Azure.process_commits (some "aaa111") envC6w).trace = [] ∧
      (Azure.process_commits (some "aaa111") envC6w).finalState = some "aaa111" ∧
      diffCount (Azure.process_commits (some "aaa111") envC6w).trace = 0 ∧
      upsertCount (Azure.process_commits (some "aaa111") envC6w).trace = 0) :=
  ⟨rfl, by decide,
    claim_C6_up_to_date_noop (some "aaa111") envC6w "aaa111" rfl (by decide)⟩

/-- Claim C1 (amended): in a cycle where the resolved head differs from the
tracked pointer, an absent diff fetch (or a diff response without the files
key) aborts the cycle in both variants: no embed call, no upsert, no pointer
write, and the tracked pointer state is unchanged. An absent
revision-metadata fetch alone does not abort: the Azure variant performs
zero upserts but still advances the pointer, and the ChromaDB variant raises
before any upsert only when the file list is non-empty. -/
theorem claim_C1_abort_on_absent_diff (st : Option String) (env : Env)
    (l p : String)
    (h1 : env.latest = some l) (h2 : l.isEmpty = false)
    (h3 : read_previous_hash st = some p) (h4 : p.isEmpty = false) (h5 : p ≠ l)
    (h6 : diffFiles env.diff = none) :
    upsertCount (Chroma.sync_with_vector_db st env).trace = 0 ∧
    embedCount (Chroma.sync_with_vector_db st env).trace = 0 ∧
    writeCount (Chroma.sync_with_vector_db st env).trace = 0 ∧
    (Chroma.sync_with_vector_db st env).finalState = st ∧
    upsertCount (Azure.process_commits st env).trace = 0 ∧
    embedCount (Azure.process_commits st env).trace = 0 ∧
    writeCount (Azure.process_commits st env).trace = 0 ∧
    (Azure.process_commits st env).finalState = st := by
  rw [Chroma.sync_diff_absent st env l p h1 h2 h3 h4 h5 h6,
    Azure.commits_diff_absent st env l p h1 h2 h3 h4 h5 h6]
  simp [upsertCount, embedCount, writeCount, List.filter,
    isUpsertEvent, isEmbedEvent, isWriteEvent]

theorem claim_C1_abort_on_absent_diff_witness :
    envC1w.latest = some "bbb222" ∧ ("bbb222" : String).isEmpty = false ∧
    read_previous_hash (some "aaa111") = some "aaa111" ∧
    ("aaa111" : String).isEmpty = false ∧ ("aaa111" : String) ≠ "bbb222" ∧
    diffFiles envC1w.diff = none ∧
    (upsertCount (Chroma.sync_with_vector_db (some "aaa111") envC1w).trace = 0 ∧
      embedCount (Chroma.sync_with_vector_db (some "aaa111") envC1w).trace = 0 ∧
      writeCount (Chroma.sync_with_vector_db (some "aaa111") envC1w).trace = 0 ∧
      (Chroma.sync_with_vector_db (some "aaa111") envC1w).finalState
        = some "aaa111" ∧
      upsertCount (Azure.process_commits (some "aaa111") envC1w).trace = 0 ∧
      embedCount (Azure.process_commits (some "aaa111") envC1w).trace = 0 ∧
      writeCount (Azure.process_commits (some "aaa111") envC1w).trace = 0 ∧
      (Azure.process_commits (some "aaa111") envC1w).finalState
        = some "aaa111") :=
  ⟨rfl, rfl, by decide, rfl, by decide, rfl,
    claim_C1_abort_on_absent_diff (some "aaa111") envC1w "bbb222" "aaa111"
      rfl rfl (by decide) rfl (by decide) rfl⟩

/-- Claim C1 is false as stated for the metadata fetch: with the resolved
head differing from the tracked pointer, the diff present with one entry,
and the revision-metadata fetch absent, the Azure variant performs zero
upserts yet still advances the tracked pointer to the new head — the cycle
does not leave the prior pointer in place. -/
theorem claim_C1_counterexample :
    envC1.commitInfo = none ∧
    upsertCount (Azure.process_commits (some "aaa111") envC1).trace = 0 ∧
    (Azure.process_commits (some "aaa111") envC1).finalState = some "bbb222" ∧
    (Azure.process_commits (some "aaa111") envC1).finalState ≠ some "aaa111" := by
  refine ⟨rfl, ?_, ?_, ?_⟩ <;> decide

@[simp]
theorem upsertCount_nil : upsertCount [] = 0 := rfl

@[simp]
theorem embedCount_nil : embedCount [] = 0 := rfl

@[simp]
theorem writeCount_nil : writeCount [] = 0 := rfl

@[simp]
theorem errCount_nil : errCount [] = 0 := rfl

@[simp]
theorem upsertCount_cons (e : Event) (tr : List Event) :
    upsertCount (e :: tr) = (if isUpsertEvent e then 1 else 0) + upsertCount tr := by
  by_cases h : isUpsertEvent e <;> simp [upsertCount, List.filter_cons, h, Nat.add_comm]

@[simp]
theorem embedCount_cons (e : Event) (tr : List Event) :
    embedCount (e :: tr) = (if isEmbedEvent e then 1 else 0) + embedCount tr := by
  by_cases h : isEmbedEvent e <;> simp [embedCount, List.filter_cons, h, Nat.add_comm]

@[simp]
theorem writeCount_cons (e : Event) (tr : List Event) :
    writeCount (e :: tr) = (if isWriteEvent e then 1 else 0) + writeCount tr := by
  by_cases h : isWriteEvent e <;> simp [writeCount, List.filter_cons, h, Nat.add_comm]

@[simp]
theorem errCount_cons (e : Event) (tr : List Event) :
    errCount (e :: tr) = (if isErrEvent e then 1 else 0) + errCount tr := by
  by_cases h : isErrEvent e <;> simp [errCount, List.filter_cons, h, Nat.add_comm]

/-- Claim C2: for every delta of N changed entries with the head resolved,
the diff and metadata fetches succeeding, and every embedding and sink call
succeeding, both variants make exactly N upsert calls — one per changed
entry — and write the new head to the tracked pointer only after all N
entries have been processed (the pointer write is the final event, preceded
by all upserts). -/
theorem claim_C2_exactly_n_upserts_then_pointer (st : Option String)
    (env : Env) (l p : String) (fs : List FileChange) (info : CommitInfo)
    (h1 : env.latest = some l) (h2 : l.isEmpty = false)
    (h3 : read_previous_hash st = some p) (h4 : p.isEmpty = false) (h5 : p ≠ l)
    (h6 : diffFiles env.diff = some fs) (h7 : env.commitInfo = some info)
    (he : ∀ s, (env.embed s).isSome = true) (hs : ∀ i, env.sinkOk i = true) :
    (upsertCount (Chroma.sync_with_vector_db st env).trace = fs.length ∧
     (Chroma.sync_with_vector_db st env).finalState = some l ∧
     ∃ pre, (Chroma.sync_with_vector_db st env).trace
         = pre ++ [Event.writePointer l] ∧
       writeCount pre = 0 ∧ upsertCount pre = fs.length) ∧
    (upsertCount (Azure.process_commits st env).trace = fs.length ∧
     (Azure.process_commits st env).finalState = some l ∧
     ∃ pre, (Azure.process_commits st env).trace = pre ++ [Event.writePointer l] ∧
       writeCount pre = 0 ∧ upsertCount pre = fs.length) := by
  have hc := Chroma.process_changes_all_ok fs info env.embed env.sinkOk env.now
    (fun f _ => he _) hs
  have ha := Azure.flatMap_counts_all_ok fs info env.embed env.sinkOk env.now
    (fun f _ => he _) hs
  have hcp := Chroma.sync_delta_path st env l p fs h1 h2 h3 h4 h5 h6
  have hap := Azure.commits_delta_path st env l p fs h1 h2 h3 h4 h5 h6
  rw [h7] at hcp hap
  rw [hc.1] at hcp
  simp only [Bool.false_eq_true, if_false] at hcp
  obtain ⟨-, hcu, -, hcw, -⟩ := hc
  obtain ⟨hau, -, haw, -⟩ := ha
  rw [hcp, hap]
  refine ⟨⟨?_, rfl, Event.diffCall p l :: Event.metadataCall l ::
      (Chroma.process_changes fs (some info) env.embed env.sinkOk env.now).1,
      ?_, ?_, ?_⟩, ?_, rfl, Event.diffCall p l :: Event.metadataCall l ::
      (fs.flatMap fun f =>
        Azure.index_commit_delta f (some info) env.embed env.sinkOk env.now),
      ?_, ?_, ?_⟩
  · simpa [isUpsertEvent, isWriteEvent] using hcu
  · simp
  · simpa [isWriteEvent] using hcw
  · simpa [isUpsertEvent] using hcu
  · simpa [isUpsertEvent, isWriteEvent] using hau
  · simp
  · simpa [isWriteEvent] using haw
  · simpa [isUpsertEvent] using hau

theorem claim_C2_exactly_n_upserts_then_pointer_witness :
    envC4.latest = some "bbb222" ∧ ("bbb222" : String).isEmpty = false ∧
    read_previous_hash (some "aaa111") = some "aaa111" ∧
    ("aaa111" : String).isEmpty = false ∧ ("aaa111" : String) ≠ "bbb222" ∧
    diffFiles envC4.diff = some [fileC4x, fileC4y] ∧
    envC4.commitInfo = some infoC4 ∧
    (∀ s, (envC4.embed s).isSome = true) ∧ (∀ i, envC4.sinkOk i = true) ∧
    ((upsertCount (Chroma.sync_with_vector_db (some "aaa111") envC4).trace
        = [fileC4x, fileC4y].length ∧
      (Chroma.sync_with_vector_db (some "aaa111") envC4).finalState
        = some "bbb222" ∧
      ∃ pre, (Chroma.sync_with_vector_db (some "aaa111") envC4).trace
          = pre ++ [Event.writePointer "bbb222"] ∧
        writeCount pre = 0 ∧ upsertCount pre = [fileC4x, fileC4y].length) ∧
     (upsertCount (Azure.process_commits (some "aaa111") envC4).trace
        = [fileC4x, fileC4y].length ∧
      (Azure.process_commits (some "aaa111") envC4).finalState = some "bbb222" ∧
      ∃ pre, (Azure.process_commits (some "aaa111") envC4).trace
          = pre ++ [Event.writePointer "bbb222"] ∧
        writeCount pre = 0 ∧ upsertCount pre = [fileC4x, fileC4y].length)) :=
  ⟨rfl, rfl, by decide, rfl, by decide, rfl, rfl,
    fun _ => rfl, fun _ => rfl,
    claim_C2_exactly_n_upserts_then_pointer (some "aaa111") envC4 "bbb222"
      "aaa111" [fileC4x, fileC4y] infoC4 rfl rfl (by decide) rfl (by decide)
      rfl rfl (fun _ => rfl) (fun _ => rfl)⟩

/-- Claim C7 (amended): in the Azure variant, when exactly one entry's
embedding fails and every other collaborator call succeeds, the cycle
completes with N-1 successful upserts, exactly one logged per-entry error
for the failed entry, and the tracked pointer still advanced to the new
head. (In the ChromaDB variant the same failure raises out of the cycle:
the pointer does not advance.) -/
theorem claim_C7_azure_skips_failed_entry (st : Option String) (env : Env)
    (l p : String) (fs₁ fs₂ : List FileChange) (fbad : FileChange)
    (info : CommitInfo)
    (h1 : env.latest = some l) (h2 : l.isEmpty = false)
    (h3 : read_previous_hash st = some p) (h4 : p.isEmpty = false) (h5 : p ≠ l)
    (h6 : diffFiles env.diff = some (fs₁ ++ fbad :: fs₂))
    (h7 : env.commitInfo = some info)
    (he₁ : ∀ f ∈ fs₁, (env.embed (Azure.delta_description f info)).isSome = true)
    (he₂ : ∀ f ∈ fs₂, (env.embed (Azure.delta_description f info)).isSome = true)
    (hbad : env.embed (Azure.delta_description fbad info) = none)
    (hs : ∀ i, env.sinkOk i = true) :
    upsertCount (Azure.process_commits st env).trace + 1
      = (fs₁ ++ fbad :: fs₂).length ∧
    errCount (Azure.process_commits st env).trace = 1 ∧
    (Azure.process_commits st env).finalState = some l := by
  have hap := Azure.commits_delta_path st env l p (fs₁ ++ fbad :: fs₂) h1 h2 h3 h4 h5 h6
  rw [h7] at hap
  obtain ⟨hu₁, -, -, her₁⟩ :=
    Azure.flatMap_counts_all_ok fs₁ info env.embed env.sinkOk env.now he₁ hs
  obtain ⟨hu₂, -, -, her₂⟩ :=
    Azure.flatMap_counts_all_ok fs₂ info env.embed env.sinkOk env.now he₂ hs
  rw [hap]
  rw [List.flatMap_append, List.flatMap_cons,
    Azure.index_commit_delta_embed_fail fbad info env.embed env.sinkOk env.now hbad]
  refine ⟨?_, ?_, rfl⟩
  · simp only [upsertCount_append, upsertCount_cons, upsertCount_nil,
      isUpsertEvent, List.length_append, List.length_cons]
    simp [hu₁, hu₂]
    omega
  · simp only [errCount_append, errCount_cons, errCount_nil,
      isErrEvent, List.length_append, List.length_cons]
    simp [her₁, her₂]

set_option maxRecDepth 16000 in
theorem claim_C7_azure_skips_failed_entry_witness :
    envC7w.latest = some "bbb222" ∧ ("bbb222" : String).isEmpty = false ∧
    read_previous_hash (some "aaa111") = some "aaa111" ∧
    ("aaa111" : String).isEmpty = false ∧ ("aaa111" : String) ≠ "bbb222" ∧
    diffFiles envC7w.diff = some ([] ++ fileC4x :: [fileC4y]) ∧
    envC7w.commitInfo = some infoC4 ∧
    (∀ f ∈ ([] : List FileChange),
      (envC7w.embed (Azure.delta_description f infoC4)).isSome = true) ∧
    (∀ f ∈ [fileC4y],
      (envC7w.embed (Azure.delta_description f infoC4)).isSome = true) ∧
    envC7w.embed (Azure.delta_description fileC4x infoC4) = none ∧
    (∀ i, envC7w.sinkOk i = true) ∧
    (upsertCount (Azure.process_commits (some "aaa111") envC7w).trace + 1
        = ([] ++ fileC4x :: [fileC4y]).length ∧
      errCount (Azure.process_commits (some "aaa111") envC7w).trace = 1 ∧
      (Azure.process_commits (some "aaa111") envC7w).finalState
        = some "bbb222") :=
  ⟨rfl, rfl, by decide, rfl, by decide, rfl, rfl,
    by simp, by decide, by decide, fun _ => rfl,
    claim_C7_azure_skips_failed_entry (some "aaa111") envC7w "bbb222" "aaa111"
      [] [fileC4y] fileC4x infoC4 rfl rfl (by decide) rfl (by decide) rfl rfl
      (by simp) (by decide) (by decide) (fun _ => rfl)⟩

/-- Claim C7 is false as stated for the ChromaDB variant: with a delta of one
entry whose embedding fails, the exception propagates out of
`process_changes`, so the cycle records no skip, performs zero upserts, and
— contrary to the claim — does not advance the tracked pointer to the new
head. -/
theorem claim_C7_counterexample :
    (Chroma.sync_with_vector_db (some "aaa111") envC7).crashed = true ∧
    upsertCount (Chroma.sync_with_vector_db (some "aaa111") envC7).trace = 0 ∧
    errCount (Chroma.sync_with_vector_db (some "aaa111") envC7).trace = 0 ∧
    (Chroma.sync_with_vector_db (some "aaa111") envC7).finalState
      = some "aaa111" ∧
    (some "aaa111" : Option String) ≠ some "bbb222" := by
  refine ⟨?_, ?_, ?_, ?_, ?_⟩ <;> decide

set_option maxRecDepth 16000 in
/-- Claim C4: in the spec's §8 scenario — tracked pointer `"aaa111"`,
resolved head `"bbb222"`, a two-entry diff for `x.py` (modified, +3 -1) and
`y.py` (added, +10 -0) with healthy collaborators — both variants produce
exactly the two unit identifiers `"bbb222_x.py"` and `"bbb222_y.py"`, make
exactly two embed calls and two upsert calls, and update the tracked pointer
to `"bbb222"`. -/
theorem claim_C4_two_entry_scenario :
    upsertIds (Chroma.sync_with_vector_db (some "aaa111") envC4).trace
      = ["bbb222_x.py", "bbb222_y.py"] ∧
    embedCount (Chroma.sync_with_vector_db (some "aaa111") envC4).trace = 2 ∧
    upsertCount (Chroma.sync_with_vector_db (some "aaa111") envC4).trace = 2 ∧
    (Chroma.sync_with_vector_db (some "aaa111") envC4).finalState
      = some "bbb222" ∧
    upsertIds (Azure.process_commits (some "aaa111") envC4).trace
      = ["bbb222_x.py", "bbb222_y.py"] ∧
    embedCount (Azure.process_commits (some "aaa111") envC4).trace = 2 ∧
    upsertCount (Azure.process_commits (some "aaa111") envC4).trace = 2 ∧
    (Azure.process_commits (some "aaa111") envC4).finalState = some "bbb222" := by
  refine ⟨?_, ?_, ?_, ?_, ?_, ?_, ?_, ?_⟩ <;> decide
